import Mathlib

/-!
Verification of the podcast pipeline orchestration core.

Shallow embedding of the orchestration code:
  - `src/database/models.py`        -> `Episode`, `ProcessingJob`
  - `src/fetchers/audio_downloader.py`    -> `downloadEpisode`, `downloadRun`
  - `src/workers/transcription_worker.py` -> `transcribeAudio`,
    `transcriptionProcessEpisode`, `transcriptionBatch`, `transcriptionPending`
  - `src/workers/summarization_worker.py` -> `summarizationProcessEpisode`,
    `summarizationPending`
  - `src/workers/digest_composer.py`      -> `getSubscriberList`,
    `selectForDigestWindow`, `sendDigest`, `sendDigestContent`, `sendDailyDigest`

External collaborators (network download, Whisper model, Ollama model, the
filesystem, SMTP transport) are passed in as explicit function parameters:
a fallible collaborator is a function into `Except String _` whose `.error`
branch models a raised exception. Timestamps are integers (seconds).
-/

/-- Episode row (`models.py`, class `Episode`): the fields read or written by
the orchestration core.  `Option` encodes SQL NULL; timestamps are seconds. -/
structure Episode where
  id : Nat
  title : String
  audio_file_path : Option String
  transcript_file_path : Option String
  summary_file_path : Option String
  downloaded : Bool
  transcribed : Bool
  summarized : Bool
  transcript_word_count : Option Nat
  transcript_duration : Option Int
  transcript_language : Option String
  download_completed_at : Option Int
  transcription_completed_at : Option Int
  summarization_completed_at : Option Int
  processing_error : Option String
  retry_count : Nat
deriving DecidableEq

/-- ProcessingJob row (`models.py`, class `ProcessingJob`): the fields the
workers write.  The final state of the row after the attempt is recorded. -/
structure ProcessingJob where
  episode_id : Nat
  job_type : String
  status : String
  error_message : Option String
deriving DecidableEq

/-- Transcript payload assembled by `TranscriptionWorker.transcribe_audio`
from the model output (segment details elided; no claim reads them). -/
structure TranscriptData where
  language : String
  language_probability : Int
  duration : Int
  full_transcript : String
  word_count : Nat
  audio_path : String
deriving DecidableEq

/-- Structured summary returned by `SummarizationWorker._generate_summary`
(JSON-parse fallbacks are folded into the collaborator's `.ok` branch). -/
structure SummaryData where
  executive_summary : String
  sentiment : String
deriving DecidableEq

/-- Aggregate result of one download stage invocation
(`download_pending_episodes` returns `{"downloaded": _, "failed": _}`). -/
structure DownloadStats where
  downloaded : Nat
  failed : Nat
deriving DecidableEq

/-- Aggregate result of one worker stage invocation
(`process_pending_episodes` returns `{"processed": _, "successful": _, "failed": _}`). -/
structure WorkerStats where
  processed : Nat
  successful : Nat
  failed : Nat
deriving DecidableEq

/-! ## Download stage (`audio_downloader.py`) -/

/-- Eligibility filter of `download_pending_episodes`:
`Episode.audio_file_path.is_(None), Episode.downloaded == False`. -/
def downloadEligible (e : Episode) : Bool :=
  e.audio_file_path.isNone && !e.downloaded

/-- `AudioDownloader._download_episode`.  `filePathOf` embeds
`_get_audio_file_path` (pure path construction); `dl` embeds the fallible
body around `_download_file`: `.ok true` / `.ok false` are its boolean
results, `.error msg` a raised exception.  Returns the updated row and the
boolean result. -/
def downloadEpisode (filePathOf : Episode → String)
    (dl : Episode → Except String Bool) (e : Episode) : Episode × Bool :=
  match dl e with
  | .ok true =>
      ({ e with audio_file_path := some (filePathOf e)
                downloaded := true
                processing_error := none }, true)
  | .ok false =>
      ({ e with processing_error := some "Download failed"
                retry_count := e.retry_count + 1 }, false)
  | .error msg =>
      ({ e with processing_error := some msg
                retry_count := e.retry_count + 1 }, false)

/-- `AudioDownloader.download_pending_episodes` over a registry snapshot:
each eligible row is processed by `_download_episode` exactly once (rows are
disjoint, so the concurrent gather is equivalent to this fold); ineligible
rows are untouched.  Returns the updated registry and the aggregate counts. -/
def downloadRun (filePathOf : Episode → String)
    (dl : Episode → Except String Bool) : List Episode → List Episode × DownloadStats
  | [] => ([], ⟨0, 0⟩)
  | e :: rest =>
      let r := downloadRun filePathOf dl rest
      if downloadEligible e then
        let p := downloadEpisode filePathOf dl e
        (p.1 :: r.1,
          if p.2 then ⟨r.2.downloaded + 1, r.2.failed⟩
          else ⟨r.2.downloaded, r.2.failed + 1⟩)
      else (e :: r.1, r.2)

/-! ## Transcription stage (`transcription_worker.py`) -/

/-- `TranscriptionWorker.transcribe_audio`: `model` embeds the Whisper call
plus segment assembly; on any raised error the worker returns a placeholder
transcript instead of propagating the failure. -/
def transcribeAudio (model : String → Except String TranscriptData)
    (audio_path : String) : TranscriptData :=
  match model audio_path with
  | .ok td => td
  | .error e =>
      { language := "en"
        language_probability := 0
        duration := 0
        full_transcript := "[Transcription failed: " ++ e ++ "]"
        word_count := 0
        audio_path := audio_path }

/-- `TranscriptionWorker.process_episode`.  `fs` embeds `os.path.exists`;
`save` embeds the fallible `save_transcript` (returns the transcript path).
Returns the updated row, the job rows added, and the boolean result. -/
def transcriptionProcessEpisode (fs : String → Bool)
    (model : String → Except String TranscriptData)
    (save : Nat → TranscriptData → Except String String)
    (e : Episode) : Episode × List ProcessingJob × Bool :=
  match e.audio_file_path with
  | none => (e, [], false)
  | some apath =>
      if !fs apath then (e, [], false)
      else if (match e.transcript_file_path with
               | some tp => fs tp
               | none => false) then (e, [], true)
      else
        let td := transcribeAudio model apath
        match save e.id td with
        | .ok tpath =>
            ({ e with transcript_file_path := some tpath
                      transcript_word_count := some td.word_count
                      transcript_duration := some td.duration
                      transcript_language := some td.language },
             [⟨e.id, "transcription", "completed", none⟩], true)
        | .error msg =>
            (e, [⟨e.id, "transcription", "failed", some msg⟩], false)

/-- Eligibility filter of `process_pending_episodes` (transcription):
`Episode.audio_file_path.isnot(None), Episode.transcript_file_path.is_(None)`. -/
def transcriptionEligible (e : Episode) : Bool :=
  e.audio_file_path.isSome && e.transcript_file_path.isNone

/-- The batch actually dispatched by the transcription stage: the eligible
rows in registry order, truncated by the query's `.limit(3)`. -/
def transcriptionBatch (db : List Episode) : List Episode :=
  (db.filter transcriptionEligible).take 3

/-- `TranscriptionWorker.process_pending_episodes`: dispatches the batch,
collecting per-item outcomes and the aggregate counts
(`processed = len(episodes)`, `successful = count of True`). -/
def transcriptionPending (fs : String → Bool)
    (model : String → Except String TranscriptData)
    (save : Nat → TranscriptData → Except String String)
    (db : List Episode) : List (Episode × List ProcessingJob × Bool) × WorkerStats :=
  let outs := (transcriptionBatch db).map (transcriptionProcessEpisode fs model save)
  let succ := outs.countP (fun o => o.2.2)
  (outs, ⟨outs.length, succ, outs.length - succ⟩)

/-! ## Summarization stage (`summarization_worker.py`) -/

/-- `SummarizationWorker.process_episode`.  `fs` embeds `os.path.exists`;
`load` the fallible `_load_transcript`; `gen` the prompt construction plus
the fallible `_generate_summary`; `save` the fallible `_save_summary`.
The `Summary` table row added on success is elided (no claim reads it).
Returns the updated row, the job rows added, and the boolean result. -/
def summarizationProcessEpisode (fs : String → Bool)
    (load : String → Except String TranscriptData)
    (gen : TranscriptData → String → Except String SummaryData)
    (save : Nat → SummaryData → Except String String)
    (e : Episode) : Episode × List ProcessingJob × Bool :=
  match e.transcript_file_path with
  | none => (e, [], false)
  | some tpath =>
      if !fs tpath then (e, [], false)
      else if (match e.summary_file_path with
               | some sp => fs sp
               | none => false) then (e, [], true)
      else
        match (do
          let td ← load tpath
          let sd ← gen td e.title
          let spath ← save e.id sd
          pure spath : Except String String) with
        | .ok spath =>
            ({ e with summary_file_path := some spath
                      summarized := true },
             [⟨e.id, "summarization", "completed", none⟩], true)
        | .error msg =>
            (e, [⟨e.id, "summarization", "failed", some msg⟩], false)

/-- Eligibility filter of `process_pending_episodes` (summarization):
`Episode.transcript_file_path.isnot(None), Episode.summary_file_path.is_(None)`. -/
def summarizationEligible (e : Episode) : Bool :=
  e.transcript_file_path.isSome && e.summary_file_path.isNone

/-- `SummarizationWorker.process_pending_episodes`: the whole eligible set
in registry order (no `.limit`), each dispatched once. -/
def summarizationPending (fs : String → Bool)
    (load : String → Except String TranscriptData)
    (gen : TranscriptData → String → Except String SummaryData)
    (save : Nat → SummaryData → Except String String)
    (db : List Episode) : List (Episode × List ProcessingJob × Bool) × WorkerStats :=
  let outs := (db.filter summarizationEligible).map
    (summarizationProcessEpisode fs load gen save)
  let succ := outs.countP (fun o => o.2.2)
  (outs, ⟨outs.length, succ, outs.length - succ⟩)

/-! ## Digest composition and delivery (`digest_composer.py`) -/

/-- SQL comparison `Episode.summarization_completed_at >= cutoff`:
a NULL timestamp compares false. -/
def summarizationTsAtLeast (cutoff : Int) (e : Episode) : Bool :=
  match e.summarization_completed_at with
  | some t => cutoff ≤ t
  | none => false

/-- Sort key used by `order_by(Episode.summarization_completed_at.desc())`. -/
def digestTs (e : Episode) : Int :=
  e.summarization_completed_at.getD 0

/-- Insertion step of the descending sort on `digestTs`. -/
def insertDesc (e : Episode) : List Episode → List Episode
  | [] => [e]
  | x :: xs => if digestTs x ≤ digestTs e then e :: x :: xs else x :: insertDesc e xs

/-- Descending sort on `digestTs`, modelling
`order_by(Episode.summarization_completed_at.desc())`. -/
def sortByTsDesc (l : List Episode) : List Episode :=
  l.foldr insertDesc []

/-- The episode query of `DigestComposer.send_daily_digest`:
`cutoff = utcnow() - timedelta(hours=25)`, filter
`summary_file_path.isnot(None)` and `summarization_completed_at >= cutoff`,
ordered by `summarization_completed_at` descending. -/
def selectForDigestWindow (now : Int) (db : List Episode) : List Episode :=
  let cutoff := now - 25 * 3600
  sortByTsDesc
    (db.filter (fun e => e.summary_file_path.isSome && summarizationTsAtLeast cutoff e))

/-- Email configuration fields read by `DigestComposer`
(`config.py`, class `Settings`). -/
structure EmailConfig where
  email_enabled : Bool
  recipient_email : String
  subscriber_emails : String
deriving DecidableEq

/-- Python `str.strip()`: drop leading and trailing whitespace. -/
def pyStrip (s : String) : String :=
  ⟨((s.data.dropWhile Char.isWhitespace).reverse.dropWhile Char.isWhitespace).reverse⟩

/-- Loop body of `_get_subscriber_list`: strip the entry, append it when it
is non-empty and not already present. -/
def subscriberStep (acc : List String) (em : String) : List String :=
  let em := pyStrip em
  if em ≠ "" && !acc.contains em then acc ++ [em] else acc

/-- `DigestComposer._get_subscriber_list`: the legacy single recipient
(stripped) if the raw value is non-empty, then each comma-separated
subscriber, stripped, skipping empties and duplicates. -/
def getSubscriberList (cfg : EmailConfig) : List String :=
  let init := if cfg.recipient_email ≠ "" then [pyStrip cfg.recipient_email] else []
  if cfg.subscriber_emails = "" then init
  else (cfg.subscriber_emails.splitOn ",").foldl subscriberStep init

/-- `DigestComposer._send_digest_content`: `send` embeds one SMTP delivery
to one subscriber (`true` = sent).  Returns the boolean the method returns:
`success_count > 0`. -/
def sendDigestContent (cfg : EmailConfig) (send : String → Bool) : Bool :=
  if !cfg.email_enabled then false
  else
    let subs := getSubscriberList cfg
    if subs.isEmpty then false
    else decide (0 < subs.countP send)

/-- `DigestComposer.send_digest`: early-outs for disabled email, an empty
episode list, and an empty subscriber list all return `False`; otherwise
the per-subscriber fan-out returns `success_count > 0`. -/
def sendDigest (cfg : EmailConfig) (send : String → Bool)
    (episodes : List Episode) : Bool :=
  if !cfg.email_enabled then false
  else if episodes.isEmpty then false
  else
    let subs := getSubscriberList cfg
    if subs.isEmpty then false
    else decide (0 < subs.countP send)

/-- `DigestComposer.send_daily_digest`: selects the digest window; an empty
selection returns `True` ("not an error, just no content"), otherwise the
result of `_send_digest_content`. -/
def sendDailyDigest (cfg : EmailConfig) (send : String → Bool)
    (now : Int) (db : List Episode) : Bool :=
  let episodes := selectForDigestWindow now db
  if episodes.isEmpty then true
  else sendDigestContent cfg send

/-! ## Derived invariants and shared lemmas -/

/-- Cross-stage consistency of an Episode row: stage ordering of artifacts
and agreement of the `downloaded` / `summarized` flags with their artifacts. -/
def stageInvariant (e : Episode) : Prop :=
  (e.transcript_file_path.isSome = true → e.audio_file_path.isSome = true)
  ∧ (e.summary_file_path.isSome = true → e.transcript_file_path.isSome = true)
  ∧ e.downloaded = e.audio_file_path.isSome
  ∧ e.summarized = e.summary_file_path.isSome

/-- Fields that no stage-outcome recorder ever writes: the `transcribed`
flag and all three completion timestamps. -/
def recorderUntouched (e e' : Episode) : Prop :=
  e'.transcribed = e.transcribed
  ∧ e'.download_completed_at = e.download_completed_at
  ∧ e'.transcription_completed_at = e.transcription_completed_at
  ∧ e'.summarization_completed_at = e.summarization_completed_at

/-- The boolean outcome of `_download_episode` under collaborator `dl`. -/
def dlOk (dl : Episode → Except String Bool) (e : Episode) : Bool :=
  match dl e with
  | .ok true => true
  | _ => false

/-- Whether the download collaborator raises (as opposed to returning). -/
def dlRaises (dl : Episode → Except String Bool) (e : Episode) : Bool :=
  match dl e with
  | .error _ => true
  | _ => false

theorem downloadEpisode_snd (fp : Episode → String)
    (dl : Episode → Except String Bool) (e : Episode) :
    (downloadEpisode fp dl e).2 = dlOk dl e := by
  unfold downloadEpisode dlOk
  rcases dl e with msg | b
  · rfl
  · cases b <;> rfl

theorem downloadRun_registry (fp : Episode → String)
    (dl : Episode → Except String Bool) :
    ∀ db : List Episode,
      (downloadRun fp dl db).1
        = db.map (fun e => if downloadEligible e then (downloadEpisode fp dl e).1 else e)
  | [] => rfl
  | e :: rest => by
      simp only [downloadRun, List.map]
      by_cases h : downloadEligible e = true
      · simp [h, downloadRun_registry fp dl rest]
      · simp [h, downloadRun_registry fp dl rest]

theorem downloadRun_downloaded (fp : Episode → String)
    (dl : Episode → Except String Bool) :
    ∀ db : List Episode,
      (downloadRun fp dl db).2.downloaded
        = db.countP (fun e => downloadEligible e && dlOk dl e)
  | [] => rfl
  | e :: rest => by
      have ih := downloadRun_downloaded fp dl rest
      simp only [downloadRun, List.countP_cons]
      by_cases h : downloadEligible e = true
      · rcases hb : (downloadEpisode fp dl e).2 with _ | _ <;>
          simp_all [downloadEpisode_snd]
      · simp_all
  
theorem downloadRun_failed (fp : Episode → String)
    (dl : Episode → Except String Bool) :
    ∀ db : List Episode,
      (downloadRun fp dl db).2.failed
        = db.countP (fun e => downloadEligible e && !dlOk dl e)
  | [] => rfl
  | e :: rest => by
      have ih := downloadRun_failed fp dl rest
      simp only [downloadRun, List.countP_cons]
      by_cases h : downloadEligible e = true
      · rcases hb : (downloadEpisode fp dl e).2 with _ | _ <;>
          simp_all [downloadEpisode_snd]
      · simp_all

theorem countP_bool_split {α : Type} (p q : α → Bool) :
    ∀ l : List α,
      l.countP p = l.countP (fun a => p a && q a) + l.countP (fun a => p a && !q a)
  | [] => rfl
  | a :: l => by
      simp only [List.countP_cons]
      rcases hp : p a with _ | _ <;> rcases hq : q a with _ | _ <;>
        simp [hp, hq, countP_bool_split p q l] <;> omega

/-! ## Concrete fixtures used by witness and counterexample theorems -/

/-- A freshly acquired episode: no artifacts, no flags, no errors. -/
def baseEpisode (i : Nat) : Episode :=
  { id := i
    title := "ep"
    audio_file_path := none
    transcript_file_path := none
    summary_file_path := none
    downloaded := false
    transcribed := false
    summarized := false
    transcript_word_count := none
    transcript_duration := none
    transcript_language := none
    download_completed_at := none
    transcription_completed_at := none
    summarization_completed_at := none
    processing_error := none
    retry_count := 0 }

/-- An episode whose download stage has completed. -/
def epWithAudio : Episode :=
  { baseEpisode 1 with audio_file_path := some "a.mp3", downloaded := true }

/-- A downloaded episode carrying a download completion timestamp `t`. -/
def epAudioAt (i : Nat) (t : Int) : Episode :=
  { baseEpisode i with
      audio_file_path := some "a.mp3"
      downloaded := true
      download_completed_at := some t }

/-- A sample healthy transcript payload. -/
def tdSample : TranscriptData :=
  { language := "en"
    language_probability := 95
    duration := 120
    full_transcript := "hello world"
    word_count := 2
    audio_path := "a.mp3" }

instance (e : Episode) : Decidable (stageInvariant e) := by
  unfold stageInvariant; infer_instance

instance (e e' : Episode) : Decidable (recorderUntouched e e') := by
  unfold recorderUntouched; infer_instance

theorem download_invariant (fp : Episode → String)
    (dl : Episode → Except String Bool) (e : Episode) (h : stageInvariant e) :
    stageInvariant (downloadEpisode fp dl e).1
    ∧ recorderUntouched e (downloadEpisode fp dl e).1 := by
  obtain ⟨h1, h2, h3, h4⟩ := h
  unfold downloadEpisode
  rcases hd : dl e with msg | b
  · exact ⟨⟨h1, h2, h3, h4⟩, rfl, rfl, rfl, rfl⟩
  · cases b
    · exact ⟨⟨h1, h2, h3, h4⟩, rfl, rfl, rfl, rfl⟩
    · exact ⟨⟨fun _ => rfl, h2, rfl, h4⟩, rfl, rfl, rfl, rfl⟩

theorem transcription_invariant (fs : String → Bool)
    (model : String → Except String TranscriptData)
    (save : Nat → TranscriptData → Except String String)
    (e : Episode) (h : stageInvariant e) :
    stageInvariant (transcriptionProcessEpisode fs model save e).1
    ∧ recorderUntouched e (transcriptionProcessEpisode fs model save e).1 := by
  obtain ⟨h1, h2, h3, h4⟩ := h
  unfold transcriptionProcessEpisode
  rcases ha : e.audio_file_path with _ | apath
  · exact ⟨⟨h1, h2, h3, h4⟩, rfl, rfl, rfl, rfl⟩
  · simp only
    split
    · exact ⟨⟨h1, h2, h3, h4⟩, rfl, rfl, rfl, rfl⟩
    · split
      · exact ⟨⟨h1, h2, h3, h4⟩, rfl, rfl, rfl, rfl⟩
      · split
        · refine ⟨⟨fun _ => ?_, fun _ => rfl, ?_, h4⟩, rfl, rfl, rfl, rfl⟩
          · simp [ha]
          · simpa [ha] using h3
        · exact ⟨⟨h1, h2, h3, h4⟩, rfl, rfl, rfl, rfl⟩

theorem summarization_invariant (fs : String → Bool)
    (load : String → Except String TranscriptData)
    (gen : TranscriptData → String → Except String SummaryData)
    (save : Nat → SummaryData → Except String String)
    (e : Episode) (h : stageInvariant e) :
    stageInvariant (summarizationProcessEpisode fs load gen save e).1
    ∧ recorderUntouched e (summarizationProcessEpisode fs load gen save e).1 := by
  obtain ⟨h1, h2, h3, h4⟩ := h
  unfold summarizationProcessEpisode
  rcases ht : e.transcript_file_path with _ | tpath
  · exact ⟨⟨h1, h2, h3, h4⟩, rfl, rfl, rfl, rfl⟩
  · simp only
    split
    · exact ⟨⟨h1, h2, h3, h4⟩, rfl, rfl, rfl, rfl⟩
    · split
      · exact ⟨⟨h1, h2, h3, h4⟩, rfl, rfl, rfl, rfl⟩
      · split
        · refine ⟨⟨?_, fun _ => ?_, h3, rfl⟩, rfl, rfl, rfl, rfl⟩
          · simpa [ht] using h1
          · simp [ht]
        · exact ⟨⟨h1, h2, h3, h4⟩, rfl, rfl, rfl, rfl⟩

/-- C1: the claim as written is false on the code: no stage-outcome recorder
ever writes a completion timestamp, and the transcription recorder never sets
the `transcribed` flag.  After a successful transcription the transcript
artifact is non-null while `transcription_completed_at` is still null and
`transcribed` is still false. -/
theorem C1_counterexample :
    ((transcriptionProcessEpisode (fun _ => true) (fun _ => .ok tdSample)
        (fun _ _ => .ok "t.json") epWithAudio).1.transcript_file_path
      = some "t.json")
    ∧ (transcriptionProcessEpisode (fun _ => true) (fun _ => .ok tdSample)
        (fun _ _ => .ok "t.json") epWithAudio).1.transcribed = false
    ∧ (transcriptionProcessEpisode (fun _ => true) (fun _ => .ok tdSample)
        (fun _ _ => .ok "t.json") epWithAudio).1.transcription_completed_at
      = none := by
  decide

/-- C1 (amended): after any stage outcome is recorded, artifact ordering is
preserved (no later artifact set while an earlier one is null) and the
`downloaded` / `summarized` flags agree with artifact presence; but the
completion timestamps and the `transcribed` flag are never written by any
recorder (so "timestamp set iff artifact non-null" and agreement of
`transcribed` do not hold). -/
theorem C1_stage_outcome_invariant (fp : Episode → String)
    (dl : Episode → Except String Bool) (fs : String → Bool)
    (model : String → Except String TranscriptData)
    (tsave : Nat → TranscriptData → Except String String)
    (load : String → Except String TranscriptData)
    (gen : TranscriptData → String → Except String SummaryData)
    (ssave : Nat → SummaryData → Except String String)
    (e : Episode) (h : stageInvariant e) :
    (stageInvariant (downloadEpisode fp dl e).1
      ∧ recorderUntouched e (downloadEpisode fp dl e).1)
    ∧ (stageInvariant (transcriptionProcessEpisode fs model tsave e).1
      ∧ recorderUntouched e (transcriptionProcessEpisode fs model tsave e).1)
    ∧ (stageInvariant (summarizationProcessEpisode fs load gen ssave e).1
      ∧ recorderUntouched e (summarizationProcessEpisode fs load gen ssave e).1) :=
  ⟨download_invariant fp dl e h,
   transcription_invariant fs model tsave e h,
   summarization_invariant fs load gen ssave e h⟩

/-- C1 witness: the amended invariant applied to a concrete fresh episode
with concrete collaborators. -/
theorem C1_stage_outcome_invariant_witness :
    stageInvariant (baseEpisode 1)
    ∧ ((stageInvariant (downloadEpisode (fun _ => "a.mp3") (fun _ => .ok true)
          (baseEpisode 1)).1
        ∧ recorderUntouched (baseEpisode 1)
            (downloadEpisode (fun _ => "a.mp3") (fun _ => .ok true) (baseEpisode 1)).1)
      ∧ (stageInvariant (transcriptionProcessEpisode (fun _ => true)
            (fun _ => .ok tdSample) (fun _ _ => .ok "t.json") (baseEpisode 1)).1
        ∧ recorderUntouched (baseEpisode 1)
            (transcriptionProcessEpisode (fun _ => true) (fun _ => .ok tdSample)
              (fun _ _ => .ok "t.json") (baseEpisode 1)).1)
      ∧ (stageInvariant (summarizationProcessEpisode (fun _ => true)
            (fun _ => .ok tdSample) (fun _ _ => .ok ⟨"sum", "neutral"⟩)
            (fun _ _ => .ok "s.json") (baseEpisode 1)).1
        ∧ recorderUntouched (baseEpisode 1)
            (summarizationProcessEpisode (fun _ => true) (fun _ => .ok tdSample)
              (fun _ _ => .ok ⟨"sum", "neutral"⟩) (fun _ _ => .ok "s.json")
              (baseEpisode 1)).1)) :=
  ⟨by decide,
   C1_stage_outcome_invariant (fun _ => "a.mp3") (fun _ => .ok true) (fun _ => true)
     (fun _ => .ok tdSample) (fun _ _ => .ok "t.json") (fun _ => .ok tdSample)
     (fun _ _ => .ok ⟨"sum", "neutral"⟩) (fun _ _ => .ok "s.json")
     (baseEpisode 1) (by decide)⟩

/-- C2: the claim as written is false on the code.  With four
transcription-eligible episodes, the stage's query (`.limit(3)`) dispatches
only three of them; and with two eligible episodes whose predecessor
(download) completion timestamps are out of order, the dispatch sequence
follows registry order, newest predecessor first, not oldest first. -/
theorem C2_counterexample :
    (transcriptionBatch
        [epAudioAt 1 400, epAudioAt 2 300, epAudioAt 3 200, epAudioAt 4 100]).length = 3
    ∧ (([epAudioAt 1 400, epAudioAt 2 300, epAudioAt 3 200,
          epAudioAt 4 100].filter transcriptionEligible).length = 4)
    ∧ ((transcriptionBatch [epAudioAt 1 400, epAudioAt 2 100]).map
          (fun e => e.download_completed_at) = [some 400, some 100])
    ∧ ((100 : Int) < 400) := by
  decide

/-- C2 (amended): each stage invocation dispatches a one-shot snapshot of the
eligible set in registry order, each eligible item exactly once — except
that the transcription stage dispatches only the first three eligible items
(its query carries `.limit(3)`); no oldest-predecessor-timestamp ordering is
applied by any stage's query. -/
theorem C2_dispatch_snapshot (fp : Episode → String)
    (dl : Episode → Except String Bool) (fs : String → Bool)
    (model : String → Except String TranscriptData)
    (tsave : Nat → TranscriptData → Except String String)
    (load : String → Except String TranscriptData)
    (gen : TranscriptData → String → Except String SummaryData)
    (ssave : Nat → SummaryData → Except String String)
    (db : List Episode) :
    (downloadRun fp dl db).1
      = db.map (fun e => if downloadEligible e then (downloadEpisode fp dl e).1 else e)
    ∧ (downloadRun fp dl db).2.downloaded + (downloadRun fp dl db).2.failed
      = (db.filter downloadEligible).length
    ∧ (transcriptionPending fs model tsave db).1
      = ((db.filter transcriptionEligible).take 3).map
          (transcriptionProcessEpisode fs model tsave)
    ∧ (transcriptionPending fs model tsave db).2.processed
      = ((db.filter transcriptionEligible).take 3).length
    ∧ (summarizationPending fs load gen ssave db).1
      = (db.filter summarizationEligible).map
          (summarizationProcessEpisode fs load gen ssave)
    ∧ (summarizationPending fs load gen ssave db).2.processed
      = (db.filter summarizationEligible).length := by
  refine ⟨downloadRun_registry fp dl db, ?_, rfl, ?_, rfl, ?_⟩
  · rw [downloadRun_downloaded, downloadRun_failed,
      ← countP_bool_split downloadEligible (dlOk dl) db,
      ← List.countP_eq_length_filter]
  · simp [transcriptionPending, transcriptionBatch]
  · simp [summarizationPending]

/-- C3: partial failure isolation for the download stage.  If every eligible
item's download either raises or succeeds, and exactly one raises, then the
invocation reports `downloaded = N - 1`, `failed = 1`; every succeeding
eligible item's updated row is in the resulting registry with its artifact
and flag set and its error cleared; and every item's outcome is the
per-item function of that item alone (the registry map). -/
theorem C3_partial_failure (fp : Episode → String)
    (dl : Episode → Except String Bool) (db : List Episode) (n : Nat)
    (hn : (db.filter downloadEligible).length = n)
    (hdich : ∀ e ∈ db, downloadEligible e = true →
      dlRaises dl e = true ∨ dlOk dl e = true)
    (hone : db.countP (fun e => downloadEligible e && dlRaises dl e) = 1) :
    (downloadRun fp dl db).2.downloaded = n - 1
    ∧ (downloadRun fp dl db).2.failed = 1
    ∧ (downloadRun fp dl db).1
        = db.map (fun e => if downloadEligible e then (downloadEpisode fp dl e).1 else e)
    ∧ ∀ e ∈ db, downloadEligible e = true → dlOk dl e = true →
        (downloadEpisode fp dl e).1 ∈ (downloadRun fp dl db).1
        ∧ (downloadEpisode fp dl e).1.audio_file_path = some (fp e)
        ∧ (downloadEpisode fp dl e).1.downloaded = true
        ∧ (downloadEpisode fp dl e).1.processing_error = none := by
  have hcongr : ∀ e ∈ db,
      ((downloadEligible e && !dlOk dl e) = true
        ↔ (downloadEligible e && dlRaises dl e) = true) := by
    intro e he
    by_cases hel : downloadEligible e = true
    · rcases hd : dl e with m | b
      · simp [hel, dlOk, dlRaises, hd]
      · cases b
        · exfalso
          rcases hdich e he hel with hr | ho
          · simp [dlRaises, hd] at hr
          · simp [dlOk, hd] at ho
        · simp [hel, dlOk, dlRaises, hd]
    · simp [hel]
  have hfail : (downloadRun fp dl db).2.failed = 1 := by
    rw [downloadRun_failed, List.countP_congr hcongr, hone]
  have hel_count : db.countP downloadEligible = n := by
    rw [List.countP_eq_length_filter, hn]
  have hsplit := countP_bool_split downloadEligible (dlOk dl) db
  have hfail_count :
      db.countP (fun e => downloadEligible e && !dlOk dl e) = 1 := by
    rw [List.countP_congr hcongr, hone]
  have hdown : (downloadRun fp dl db).2.downloaded = n - 1 := by
    rw [downloadRun_downloaded]
    omega
  refine ⟨hdown, hfail, downloadRun_registry fp dl db, ?_⟩
  intro e he hel hok
  have hreg := downloadRun_registry fp dl db
  have hmem : (downloadEpisode fp dl e).1 ∈ (downloadRun fp dl db).1 := by
    rw [hreg]
    have := List.mem_map_of_mem
      (fun e => if downloadEligible e then (downloadEpisode fp dl e).1 else e) he
    simpa [hel] using this
  have hcall : dl e = .ok true := by
    rcases hd : dl e with m | b
    · simp [dlOk, hd] at hok
    · cases b
      · simp [dlOk, hd] at hok
      · rfl
  refine ⟨hmem, ?_, ?_, ?_⟩ <;> simp [downloadEpisode, hcall]

/-- C3 witness: three fresh eligible episodes, the second one's download
raises, the other two succeed. -/
theorem C3_partial_failure_witness :
    (([baseEpisode 1, baseEpisode 2, baseEpisode 3].filter downloadEligible).length = 3
      ∧ [baseEpisode 1, baseEpisode 2, baseEpisode 3].countP
          (fun e => downloadEligible e
            && dlRaises (fun e => if e.id = 2 then .error "net down" else .ok true) e) = 1)
    ∧ ((downloadRun (fun _ => "a.mp3")
          (fun e => if e.id = 2 then .error "net down" else .ok true)
          [baseEpisode 1, baseEpisode 2, baseEpisode 3]).2.downloaded = 3 - 1
      ∧ (downloadRun (fun _ => "a.mp3")
          (fun e => if e.id = 2 then .error "net down" else .ok true)
          [baseEpisode 1, baseEpisode 2, baseEpisode 3]).2.failed = 1
      ∧ (downloadRun (fun _ => "a.mp3")
          (fun e => if e.id = 2 then .error "net down" else .ok true)
          [baseEpisode 1, baseEpisode 2, baseEpisode 3]).1
          = [baseEpisode 1, baseEpisode 2, baseEpisode 3].map
              (fun e => if downloadEligible e then
                (downloadEpisode (fun _ => "a.mp3")
                  (fun e => if e.id = 2 then .error "net down" else .ok true) e).1 else e)
      ∧ ∀ e ∈ [baseEpisode 1, baseEpisode 2, baseEpisode 3],
          downloadEligible e = true →
          dlOk (fun e => if e.id = 2 then .error "net down" else .ok true) e = true →
          (downloadEpisode (fun _ => "a.mp3")
              (fun e => if e.id = 2 then .error "net down" else .ok true) e).1
            ∈ (downloadRun (fun _ => "a.mp3")
                (fun e => if e.id = 2 then .error "net down" else .ok true)
                [baseEpisode 1, baseEpisode 2, baseEpisode 3]).1
          ∧ (downloadEpisode (fun _ => "a.mp3")
              (fun e => if e.id = 2 then .error "net down" else .ok true) e).1.audio_file_path
            = some "a.mp3"
          ∧ (downloadEpisode (fun _ => "a.mp3")
              (fun e => if e.id = 2 then .error "net down" else .ok true) e).1.downloaded = true
          ∧ (downloadEpisode (fun _ => "a.mp3")
              (fun e => if e.id = 2 then .error "net down" else .ok true) e).1.processing_error
            = none) :=
  ⟨⟨by decide, by decide⟩,
   C3_partial_failure (fun _ => "a.mp3")
     (fun e => if e.id = 2 then .error "net down" else .ok true)
     [baseEpisode 1, baseEpisode 2, baseEpisode 3] 3
     (by decide) (by decide) (by decide)⟩

/-- C4: the claim as written is false on the code.  A failing transcription
model invocation is swallowed by `transcribe_audio`, which returns a
placeholder transcript; `process_episode` then records the attempt as a
success with the placeholder artifact saved and the job completed. -/
theorem C4_counterexample :
    (transcribeAudio (fun _ => .error "model crashed") "a.mp3").full_transcript
      = "[Transcription failed: model crashed]"
    ∧ (transcriptionProcessEpisode (fun _ => true) (fun _ => .error "model crashed")
        (fun _ _ => .ok "t.json") epWithAudio).2.2 = true
    ∧ (transcriptionProcessEpisode (fun _ => true) (fun _ => .error "model crashed")
        (fun _ _ => .ok "t.json") epWithAudio).1.transcript_file_path = some "t.json"
    ∧ (transcriptionProcessEpisode (fun _ => true) (fun _ => .error "model crashed")
        (fun _ _ => .ok "t.json") epWithAudio).1.transcript_word_count = some 0
    ∧ (transcriptionProcessEpisode (fun _ => true) (fun _ => .error "model crashed")
        (fun _ _ => .ok "t.json") epWithAudio).2.1
      = [⟨1, "transcription", "completed", none⟩] := by
  decide

/-- C4 (amended): a raised download-executor error and a raised
summarization-collaborator error are each recorded as a stage failure for
that item only; but a raised transcription-model error is converted into a
placeholder transcript (`"[Transcription failed: …]"`, word count 0)
recorded as a success — only a transcript-saving error is recorded as a
transcription failure. -/
theorem C4_failure_classification (fp : Episode → String)
    (dl : Episode → Except String Bool) (fs : String → Bool)
    (model : String → Except String TranscriptData)
    (tsave : Nat → TranscriptData → Except String String)
    (load : String → Except String TranscriptData)
    (gen : TranscriptData → String → Except String SummaryData)
    (ssave : Nat → SummaryData → Except String String)
    (e : Episode) (msg : String) :
    (dl e = .error msg →
      downloadEpisode fp dl e
        = ({ e with processing_error := some msg
                    retry_count := e.retry_count + 1 }, false))
    ∧ (∀ tp, e.transcript_file_path = some tp → fs tp = true →
        e.summary_file_path = none → load tp = .error msg →
        summarizationProcessEpisode fs load gen ssave e
          = (e, [⟨e.id, "summarization", "failed", some msg⟩], false))
    ∧ (∀ apath, e.audio_file_path = some apath → fs apath = true →
        e.transcript_file_path = none → model apath = .error msg →
        (transcribeAudio model apath).full_transcript
            = "[Transcription failed: " ++ msg ++ "]"
        ∧ ∀ tpath, tsave e.id (transcribeAudio model apath) = .ok tpath →
            transcriptionProcessEpisode fs model tsave e
              = ({ e with transcript_file_path := some tpath
                          transcript_word_count := some 0
                          transcript_duration := some 0
                          transcript_language := some "en" },
                 [⟨e.id, "transcription", "completed", none⟩], true))
    ∧ (∀ apath, e.audio_file_path = some apath → fs apath = true →
        e.transcript_file_path = none →
        tsave e.id (transcribeAudio model apath) = .error msg →
        transcriptionProcessEpisode fs model tsave e
          = (e, [⟨e.id, "transcription", "failed", some msg⟩], false)) := by
  refine ⟨?_, ?_, ?_, ?_⟩
  · intro hd
    simp [downloadEpisode, hd]
  · intro tp htp hfs hsum hload
    have hb : (do
        let td ← load tp
        let sd ← gen td e.title
        ssave e.id sd : Except String String) = .error msg := by
      rw [hload]; rfl
    simp [summarizationProcessEpisode, htp, hfs, hsum, hb]
  · intro apath ha hfs htn hm
    have htd : transcribeAudio model apath
        = { language := "en", language_probability := 0, duration := 0
            full_transcript := "[Transcription failed: " ++ msg ++ "]"
            word_count := 0, audio_path := apath } := by
      simp [transcribeAudio, hm]
    refine ⟨by rw [htd], ?_⟩
    intro tpath hsave
    rw [htd] at hsave
    simp [transcriptionProcessEpisode, ha, hfs, htn, htd, hsave]
  · intro apath ha hfs htn hsave
    simp [transcriptionProcessEpisode, ha, hfs, htn, hsave]

/-- C4 witness: the amended classification at concrete collaborators —
a raised download error, a raised summarization load error, a raised model
error with a working save, and a raised save error. -/
theorem C4_failure_classification_witness :
    downloadEpisode (fun _ => "a.mp3") (fun _ => .error "boom") (baseEpisode 1)
      = ({ baseEpisode 1 with processing_error := some "boom"
                              retry_count := (baseEpisode 1).retry_count + 1 }, false)
    ∧ summarizationProcessEpisode (fun _ => true) (fun _ => .error "boom")
        (fun _ _ => .ok ⟨"s", "neutral"⟩) (fun _ _ => .ok "s.json")
        { baseEpisode 2 with transcript_file_path := some "t.json" }
      = ({ baseEpisode 2 with transcript_file_path := some "t.json" },
         [⟨2, "summarization", "failed", some "boom"⟩], false)
    ∧ (transcribeAudio (fun _ => .error "boom") "a.mp3").full_transcript
        = "[Transcription failed: " ++ "boom" ++ "]"
    ∧ transcriptionProcessEpisode (fun _ => true) (fun _ => .error "boom")
        (fun _ _ => .ok "t.json") epWithAudio
      = ({ epWithAudio with transcript_file_path := some "t.json"
                            transcript_word_count := some 0
                            transcript_duration := some 0
                            transcript_language := some "en" },
         [⟨1, "transcription", "completed", none⟩], true)
    ∧ transcriptionProcessEpisode (fun _ => true) (fun _ => .ok tdSample)
        (fun _ _ => .error "boom") epWithAudio
      = (epWithAudio, [⟨1, "transcription", "failed", some "boom"⟩], false) :=
  ⟨(C4_failure_classification (fun _ => "a.mp3") (fun _ => .error "boom")
      (fun _ => true) (fun _ => .ok tdSample) (fun _ _ => .ok "t.json")
      (fun _ => .error "boom") (fun _ _ => .ok ⟨"s", "neutral"⟩)
      (fun _ _ => .ok "s.json") (baseEpisode 1) "boom").1 rfl,
   (C4_failure_classification (fun _ => "a.mp3") (fun _ => .error "boom")
      (fun _ => true) (fun _ => .ok tdSample) (fun _ _ => .ok "t.json")
      (fun _ => .error "boom") (fun _ _ => .ok ⟨"s", "neutral"⟩)
      (fun _ _ => .ok "s.json")
      { baseEpisode 2 with transcript_file_path := some "t.json" } "boom").2.1
     "t.json" rfl rfl rfl rfl,
   ((C4_failure_classification (fun _ => "a.mp3") (fun _ => .ok true)
      (fun _ => true) (fun _ => .error "boom") (fun _ _ => .ok "t.json")
      (fun _ => .ok tdSample) (fun _ _ => .ok ⟨"s", "neutral"⟩)
      (fun _ _ => .ok "s.json") epWithAudio "boom").2.2.1
     "a.mp3" rfl rfl rfl rfl).1,
   ((C4_failure_classification (fun _ => "a.mp3") (fun _ => .ok true)
      (fun _ => true) (fun _ => .error "boom") (fun _ _ => .ok "t.json")
      (fun _ => .ok tdSample) (fun _ _ => .ok ⟨"s", "neutral"⟩)
      (fun _ _ => .ok "s.json") epWithAudio "boom").2.2.1
     "a.mp3" rfl rfl rfl rfl).2 "t.json" rfl,
   (C4_failure_classification (fun _ => "a.mp3") (fun _ => .ok true)
      (fun _ => true) (fun _ => .ok tdSample) (fun _ _ => .error "boom")
      (fun _ => .ok tdSample) (fun _ _ => .ok ⟨"s", "neutral"⟩)
      (fun _ _ => .ok "s.json") epWithAudio "boom").2.2.2
     "a.mp3" rfl rfl rfl rfl⟩

theorem transcription_false_unchanged (fs : String → Bool)
    (model : String → Except String TranscriptData)
    (save : Nat → TranscriptData → Except String String) (e : Episode) :
    (transcriptionProcessEpisode fs model save e).2.2 = false →
    (transcriptionProcessEpisode fs model save e).1 = e := by
  unfold transcriptionProcessEpisode
  split
  · intro _; rfl
  · split
    · intro _; rfl
    · split
      · intro hc; simp at hc
      · dsimp only
        split
        · intro hc; simp at hc
        · intro _; rfl

theorem summarization_false_unchanged (fs : String → Bool)
    (load : String → Except String TranscriptData)
    (gen : TranscriptData → String → Except String SummaryData)
    (save : Nat → SummaryData → Except String String) (e : Episode) :
    (summarizationProcessEpisode fs load gen save e).2.2 = false →
    (summarizationProcessEpisode fs load gen save e).1 = e := by
  unfold summarizationProcessEpisode
  split
  · intro _; rfl
  · split
    · intro _; rfl
    · split
      · intro hc; simp at hc
      · split
        · intro hc; simp at hc
        · intro _; rfl

theorem transcription_error_retry_unchanged (fs : String → Bool)
    (model : String → Except String TranscriptData)
    (save : Nat → TranscriptData → Except String String) (e : Episode) :
    (transcriptionProcessEpisode fs model save e).1.processing_error = e.processing_error
    ∧ (transcriptionProcessEpisode fs model save e).1.retry_count = e.retry_count := by
  unfold transcriptionProcessEpisode
  split
  · exact ⟨rfl, rfl⟩
  · split
    · exact ⟨rfl, rfl⟩
    · split
      · exact ⟨rfl, rfl⟩
      · dsimp only
        split <;> exact ⟨rfl, rfl⟩

theorem summarization_error_retry_unchanged (fs : String → Bool)
    (load : String → Except String TranscriptData)
    (gen : TranscriptData → String → Except String SummaryData)
    (save : Nat → SummaryData → Except String String) (e : Episode) :
    (summarizationProcessEpisode fs load gen save e).1.processing_error = e.processing_error
    ∧ (summarizationProcessEpisode fs load gen save e).1.retry_count = e.retry_count := by
  unfold summarizationProcessEpisode
  split
  · exact ⟨rfl, rfl⟩
  · split
    · exact ⟨rfl, rfl⟩
    · split
      · exact ⟨rfl, rfl⟩
      · split <;> exact ⟨rfl, rfl⟩

/-- C5: the claim as written is false on the code.  A failed transcription
attempt (transcript saving raises) is recorded on the job row only: the
item's `processing_error` stays null and its `retry_count` stays 0. -/
theorem C5_counterexample :
    (transcriptionProcessEpisode (fun _ => true) (fun _ => .ok tdSample)
        (fun _ _ => .error "disk full") (epAudioAt 3 500))
      = (epAudioAt 3 500, [⟨3, "transcription", "failed", some "disk full"⟩], false)
    ∧ (epAudioAt 3 500).processing_error = none
    ∧ (epAudioAt 3 500).retry_count = 0 := by
  decide

/-- C5 (amended): only the download stage records failures on the item —
setting `processing_error` to the failure message and incrementing
`retry_count` by exactly one; transcription and summarization failures
leave the item row entirely unchanged (the message goes to the job row
only), and neither worker ever touches `processing_error` or `retry_count`.
On success, download sets artifact/flag and clears the error. -/
theorem C5_outcome_recording (fp : Episode → String)
    (dl : Episode → Except String Bool) (fs : String → Bool)
    (model : String → Except String TranscriptData)
    (tsave : Nat → TranscriptData → Except String String)
    (load : String → Except String TranscriptData)
    (gen : TranscriptData → String → Except String SummaryData)
    (ssave : Nat → SummaryData → Except String String)
    (e : Episode) (msg : String) :
    (dl e = .error msg →
      (downloadEpisode fp dl e).1.processing_error = some msg
      ∧ (downloadEpisode fp dl e).1.retry_count = e.retry_count + 1)
    ∧ (dl e = .ok false →
      (downloadEpisode fp dl e).1.processing_error = some "Download failed"
      ∧ (downloadEpisode fp dl e).1.retry_count = e.retry_count + 1)
    ∧ (dl e = .ok true →
      (downloadEpisode fp dl e).1
        = { e with audio_file_path := some (fp e)
                   downloaded := true
                   processing_error := none })
    ∧ ((transcriptionProcessEpisode fs model tsave e).2.2 = false →
        (transcriptionProcessEpisode fs model tsave e).1 = e)
    ∧ ((summarizationProcessEpisode fs load gen ssave e).2.2 = false →
        (summarizationProcessEpisode fs load gen ssave e).1 = e)
    ∧ (transcriptionProcessEpisode fs model tsave e).1.processing_error
        = e.processing_error
    ∧ (transcriptionProcessEpisode fs model tsave e).1.retry_count = e.retry_count
    ∧ (summarizationProcessEpisode fs load gen ssave e).1.processing_error
        = e.processing_error
    ∧ (summarizationProcessEpisode fs load gen ssave e).1.retry_count
        = e.retry_count := by
  refine ⟨?_, ?_, ?_, transcription_false_unchanged fs model tsave e,
    summarization_false_unchanged fs load gen ssave e,
    (transcription_error_retry_unchanged fs model tsave e).1,
    (transcription_error_retry_unchanged fs model tsave e).2,
    (summarization_error_retry_unchanged fs load gen ssave e).1,
    (summarization_error_retry_unchanged fs load gen ssave e).2⟩
  · intro hd; simp [downloadEpisode, hd]
  · intro hd; simp [downloadEpisode, hd]
  · intro hd; simp [downloadEpisode, hd]

/-- C5 witness: the amended recording behaviour at concrete collaborators —
a raised download error, a returned-false download, a successful download,
a failing transcript save, and a failing summary load. -/
theorem C5_outcome_recording_witness :
    ((downloadEpisode (fun _ => "a.mp3") (fun _ => .error "boom")
        (baseEpisode 1)).1.processing_error = some "boom"
      ∧ (downloadEpisode (fun _ => "a.mp3") (fun _ => .error "boom")
          (baseEpisode 1)).1.retry_count = (baseEpisode 1).retry_count + 1)
    ∧ ((downloadEpisode (fun _ => "a.mp3") (fun _ => .ok false)
        (baseEpisode 1)).1.processing_error = some "Download failed"
      ∧ (downloadEpisode (fun _ => "a.mp3") (fun _ => .ok false)
          (baseEpisode 1)).1.retry_count = (baseEpisode 1).retry_count + 1)
    ∧ (downloadEpisode (fun _ => "a.mp3") (fun _ => .ok true) (baseEpisode 1)).1
        = { baseEpisode 1 with audio_file_path := some "a.mp3"
                               downloaded := true
                               processing_error := none }
    ∧ ((transcriptionProcessEpisode (fun _ => true) (fun _ => .ok tdSample)
          (fun _ _ => .error "disk full") epWithAudio).2.2 = false →
        (transcriptionProcessEpisode (fun _ => true) (fun _ => .ok tdSample)
          (fun _ _ => .error "disk full") epWithAudio).1 = epWithAudio)
    ∧ (transcriptionProcessEpisode (fun _ => true) (fun _ => .ok tdSample)
        (fun _ _ => .error "disk full") epWithAudio).1.retry_count
        = epWithAudio.retry_count :=
  ⟨(C5_outcome_recording (fun _ => "a.mp3") (fun _ => .error "boom") (fun _ => true)
      (fun _ => .ok tdSample) (fun _ _ => .ok "t.json") (fun _ => .ok tdSample)
      (fun _ _ => .ok ⟨"s", "neutral"⟩) (fun _ _ => .ok "s.json")
      (baseEpisode 1) "boom").1 rfl,
   (C5_outcome_recording (fun _ => "a.mp3") (fun _ => .ok false) (fun _ => true)
      (fun _ => .ok tdSample) (fun _ _ => .ok "t.json") (fun _ => .ok tdSample)
      (fun _ _ => .ok ⟨"s", "neutral"⟩) (fun _ _ => .ok "s.json")
      (baseEpisode 1) "boom").2.1 rfl,
   (C5_outcome_recording (fun _ => "a.mp3") (fun _ => .ok true) (fun _ => true)
      (fun _ => .ok tdSample) (fun _ _ => .ok "t.json") (fun _ => .ok tdSample)
      (fun _ _ => .ok ⟨"s", "neutral"⟩) (fun _ _ => .ok "s.json")
      (baseEpisode 1) "boom").2.2.1 rfl,
   (C5_outcome_recording (fun _ => "a.mp3") (fun _ => .ok true) (fun _ => true)
      (fun _ => .ok tdSample) (fun _ _ => .error "disk full") (fun _ => .ok tdSample)
      (fun _ _ => .ok ⟨"s", "neutral"⟩) (fun _ _ => .ok "s.json")
      epWithAudio "boom").2.2.2.1,
   (C5_outcome_recording (fun _ => "a.mp3") (fun _ => .ok true) (fun _ => true)
      (fun _ => .ok tdSample) (fun _ _ => .error "disk full") (fun _ => .ok tdSample)
      (fun _ _ => .ok ⟨"s", "neutral"⟩) (fun _ _ => .ok "s.json")
      epWithAudio "boom").2.2.2.2.2.2.1⟩

/-- C6: the claim as written is false on the code.  An episode dispatched to
the transcription stage (it is in the batch) whose audio file is missing on
disk produces zero job ledger rows and zero registry mutations — neither a
success nor a failure is recorded anywhere for that attempt.  (Download
attempts, moreover, never create any job ledger row: `_download_episode`
touches only the episode row.) -/
theorem C6_counterexample :
    transcriptionBatch [epWithAudio] = [epWithAudio]
    ∧ transcriptionProcessEpisode (fun _ => false) (fun _ => .ok tdSample)
        (fun _ _ => .ok "t.json") epWithAudio = (epWithAudio, [], false) := by
  decide

/-- C6 (amended): for a transcription or summarization attempt that passes
the on-disk artifact guards, exactly one job ledger row is created and it is
finalized "completed" exactly when the attempt succeeded; the registry row
is mutated (artifact set) on success and left untouched on failure.
Download attempts mutate only the registry (no ledger row exists in that
path), and guard-skipped attempts record nothing at all. -/
theorem C6_ledger_discipline (fs : String → Bool)
    (model : String → Except String TranscriptData)
    (tsave : Nat → TranscriptData → Except String String)
    (load : String → Except String TranscriptData)
    (gen : TranscriptData → String → Except String SummaryData)
    (ssave : Nat → SummaryData → Except String String)
    (e : Episode) :
    (∀ apath, e.audio_file_path = some apath → fs apath = true →
      e.transcript_file_path = none →
      (transcriptionProcessEpisode fs model tsave e).2.1.length = 1
      ∧ ((transcriptionProcessEpisode fs model tsave e).2.1.map ProcessingJob.status)
          = [if (transcriptionProcessEpisode fs model tsave e).2.2 then "completed"
             else "failed"]
      ∧ ((transcriptionProcessEpisode fs model tsave e).2.2 = true →
          (transcriptionProcessEpisode fs model tsave e).1.transcript_file_path.isSome
            = true)
      ∧ ((transcriptionProcessEpisode fs model tsave e).2.2 = false →
          (transcriptionProcessEpisode fs model tsave e).1 = e))
    ∧ (∀ tpath, e.transcript_file_path = some tpath → fs tpath = true →
      e.summary_file_path = none →
      (summarizationProcessEpisode fs load gen ssave e).2.1.length = 1
      ∧ ((summarizationProcessEpisode fs load gen ssave e).2.1.map ProcessingJob.status)
          = [if (summarizationProcessEpisode fs load gen ssave e).2.2 then "completed"
             else "failed"]
      ∧ ((summarizationProcessEpisode fs load gen ssave e).2.2 = true →
          (summarizationProcessEpisode fs load gen ssave e).1.summary_file_path.isSome
            = true)
      ∧ ((summarizationProcessEpisode fs load gen ssave e).2.2 = false →
          (summarizationProcessEpisode fs load gen ssave e).1 = e)) := by
  constructor
  · intro apath ha hfs htn
    refine ⟨?_, ?_, ?_, transcription_false_unchanged fs model tsave e⟩ <;>
      rcases hs : tsave e.id (transcribeAudio model apath) with m | tp <;>
        simp [transcriptionProcessEpisode, ha, hfs, htn, hs]
  · intro tpath htp hfs hsn
    have hcases : (do
        let td ← load tpath
        let sd ← gen td e.title
        ssave e.id sd : Except String String) = (do
        let td ← load tpath
        let sd ← gen td e.title
        ssave e.id sd : Except String String) := rfl
    refine ⟨?_, ?_, ?_, summarization_false_unchanged fs load gen ssave e⟩ <;>
      rcases hs : (do
          let td ← load tpath
          let sd ← gen td e.title
          ssave e.id sd : Except String String) with m | sp <;>
        simp [summarizationProcessEpisode, htp, hfs, hsn, hs]

/-- C6 witness: the amended ledger discipline at concrete collaborators, on
a successful transcription, a failed transcript save, and a successful
summarization. -/
theorem C6_ledger_discipline_witness :
    ((transcriptionProcessEpisode (fun _ => true) (fun _ => .ok tdSample)
        (fun _ _ => .ok "t.json") epWithAudio).2.1.length = 1
      ∧ ((transcriptionProcessEpisode (fun _ => true) (fun _ => .ok tdSample)
          (fun _ _ => .ok "t.json") epWithAudio).2.1.map ProcessingJob.status)
        = [if (transcriptionProcessEpisode (fun _ => true) (fun _ => .ok tdSample)
              (fun _ _ => .ok "t.json") epWithAudio).2.2 then "completed" else "failed"])
    ∧ ((summarizationProcessEpisode (fun _ => true) (fun _ => .ok tdSample)
        (fun _ _ => .ok ⟨"s", "neutral"⟩) (fun _ _ => .ok "s.json")
        { baseEpisode 2 with transcript_file_path := some "t.json" }).2.1.length = 1) :=
  ⟨⟨((C6_ledger_discipline (fun _ => true) (fun _ => .ok tdSample)
      (fun _ _ => .ok "t.json") (fun _ => .ok tdSample)
      (fun _ _ => .ok ⟨"s", "neutral"⟩) (fun _ _ => .ok "s.json")
      epWithAudio).1 "a.mp3" rfl rfl rfl).1,
    ((C6_ledger_discipline (fun _ => true) (fun _ => .ok tdSample)
      (fun _ _ => .ok "t.json") (fun _ => .ok tdSample)
      (fun _ _ => .ok ⟨"s", "neutral"⟩) (fun _ _ => .ok "s.json")
      epWithAudio).1 "a.mp3" rfl rfl rfl).2.1⟩,
   ((C6_ledger_discipline (fun _ => true) (fun _ => .ok tdSample)
      (fun _ _ => .ok "t.json") (fun _ => .ok tdSample)
      (fun _ _ => .ok ⟨"s", "neutral"⟩) (fun _ _ => .ok "s.json")
      { baseEpisode 2 with transcript_file_path := some "t.json" }).2 "t.json"
      rfl rfl rfl).1⟩

theorem mem_insertDesc (e a : Episode) :
    ∀ l : List Episode, a ∈ insertDesc e l ↔ a = e ∨ a ∈ l
  | [] => by simp [insertDesc]
  | x :: xs => by
      unfold insertDesc
      by_cases h : digestTs x ≤ digestTs e
      · simp [h]
      · simp [h, mem_insertDesc e a xs]
        tauto

theorem mem_sortByTsDesc (a : Episode) :
    ∀ l : List Episode, a ∈ sortByTsDesc l ↔ a ∈ l
  | [] => by simp [sortByTsDesc]
  | x :: xs => by
      have ih := mem_sortByTsDesc a xs
      simp only [sortByTsDesc, List.foldr] at ih ⊢
      rw [mem_insertDesc, ih, List.mem_cons]

theorem pairwise_insertDesc (e : Episode) :
    ∀ l : List Episode, l.Pairwise (fun a b => digestTs b ≤ digestTs a) →
      (insertDesc e l).Pairwise (fun a b => digestTs b ≤ digestTs a)
  | [] => by simp [insertDesc]
  | x :: xs => by
      intro h
      unfold insertDesc
      rcases List.pairwise_cons.mp h with ⟨hx, hxs⟩
      by_cases hc : digestTs x ≤ digestTs e
      · simp only [hc, if_true]
        refine (List.pairwise_cons).mpr ⟨?_, h⟩
        intro y hy
        rcases List.mem_cons.mp hy with rfl | hy'
        · exact hc
        · exact le_trans (hx y hy') hc
      · simp only [hc, if_false]
        refine (List.pairwise_cons).mpr ⟨?_, pairwise_insertDesc e xs hxs⟩
        intro y hy
        rcases (mem_insertDesc e y xs).mp hy with rfl | hy'
        · omega
        · exact hx y hy'

theorem pairwise_sortByTsDesc :
    ∀ l : List Episode,
      (sortByTsDesc l).Pairwise (fun a b => digestTs b ≤ digestTs a)
  | [] => by simp [sortByTsDesc]
  | x :: xs => by
      have ih := pairwise_sortByTsDesc xs
      simpa [sortByTsDesc] using pairwise_insertDesc x (sortByTsDesc xs) ih

/-- An episode summarized with a timestamp in the future of `now = 0`. -/
def epFuture : Episode :=
  { baseEpisode 9 with
      summary_file_path := some "s.json"
      summarized := true
      summarization_completed_at := some 3600 }

/-- C7: the claim as written is false on the code.  The window query has no
upper bound and its width is hard-coded: with `now = 0` an episode whose
summarization timestamp is 3600 (strictly after `now`, hence outside the
claimed closed interval `[now - windowHours, now]`) is selected anyway. -/
theorem C7_counterexample :
    selectForDigestWindow 0 [epFuture] = [epFuture]
    ∧ epFuture.summarization_completed_at = some 3600
    ∧ (0 : Int) < 3600 := by
  decide

/-- C7 (amended): the digest selection returns exactly the items with a
summary artifact and a non-null summarization timestamp at or after
`now - 25 hours` (the width is fixed at 25 hours, not a parameter, and there
is no upper bound at `now`), ordered by that timestamp descending.  The
lower boundary is inclusive: a timestamp exactly at the cutoff is selected,
one strictly earlier is not. -/
theorem C7_digest_window (now : Int) (db : List Episode) :
    (∀ e, e ∈ selectForDigestWindow now db ↔
      e ∈ db ∧ e.summary_file_path.isSome = true
        ∧ summarizationTsAtLeast (now - 25 * 3600) e = true)
    ∧ (selectForDigestWindow now db).Pairwise
        (fun a b => digestTs b ≤ digestTs a) := by
  constructor
  · intro e
    unfold selectForDigestWindow
    rw [mem_sortByTsDesc]
    simp [List.mem_filter, and_assoc]
  · exact pairwise_sortByTsDesc _

/-- An enabled email configuration with no recipients at all. -/
def cfgNoSubs : EmailConfig := ⟨true, "", ""⟩

/-- An enabled email configuration with one legacy recipient. -/
def cfgOneSub : EmailConfig := ⟨true, "a@b.com", ""⟩

/-- C8: the claim as written is false on the code.  `send_digest` returns
the same `False` for a zero-recipient call, for a true delivery failure
(recipients attempted, zero delivered), and for an empty episode list: the
no-op outcomes are not reported distinctly from a delivery failure. -/
theorem C8_counterexample :
    sendDigest cfgNoSubs (fun _ => true) [epFuture] = false
    ∧ sendDigest cfgOneSub (fun _ => false) [epFuture] = false
    ∧ sendDigest cfgOneSub (fun _ => true) [] = false := by
  decide

/-- C8 (amended): `send_digest` reports `True` exactly when email is
enabled, the episode list is non-empty, the subscriber list is non-empty and
at least one delivery succeeded; zero recipients, an empty payload and a
total delivery failure all collapse to the same `False`.  Only the
`send_daily_digest` wrapper reports an empty window selection as a non-error
(`True`). -/
theorem C8_delivery_outcomes (cfg : EmailConfig) (send : String → Bool)
    (eps : List Episode) (now : Int) (db : List Episode) :
    sendDigest cfg send [] = false
    ∧ (getSubscriberList cfg = [] → sendDigest cfg send eps = false)
    ∧ (sendDigest cfg send eps = true ↔
        cfg.email_enabled = true ∧ eps ≠ []
          ∧ getSubscriberList cfg ≠ []
          ∧ 0 < (getSubscriberList cfg).countP send)
    ∧ (selectForDigestWindow now db = [] → sendDailyDigest cfg send now db = true) := by
  refine ⟨?_, ?_, ?_, ?_⟩
  · simp [sendDigest]
  · intro h
    simp [sendDigest, h]
  · rcases hE : cfg.email_enabled
    · simp [sendDigest, hE]
    · by_cases heps : eps = []
      · simp [sendDigest, hE, heps]
      · by_cases hsubs : getSubscriberList cfg = []
        · simp [sendDigest, hE, heps, hsubs]
        · simp [sendDigest, hE, heps, hsubs]
  · intro h
    simp [sendDailyDigest, h]

/-- C8 witness: the amended outcome table at concrete configurations. -/
theorem C8_delivery_outcomes_witness :
    sendDigest cfgOneSub (fun _ => true) [] = false
    ∧ sendDigest cfgNoSubs (fun _ => true) [epFuture] = false
    ∧ sendDailyDigest cfgOneSub (fun _ => true) 0 [] = true :=
  ⟨(C8_delivery_outcomes cfgOneSub (fun _ => true) [] 0 []).1,
   (C8_delivery_outcomes cfgNoSubs (fun _ => true) [epFuture] 0 []).2.1 (by decide),
   (C8_delivery_outcomes cfgOneSub (fun _ => true) [] 0 []).2.2.2 (by decide)⟩

theorem subscriberStep_nodup (acc : List String) (em : String) (h : acc.Nodup) :
    (subscriberStep acc em).Nodup := by
  unfold subscriberStep
  dsimp only
  split
  · next hcond =>
      simp only [Bool.and_eq_true, Bool.not_eq_true', decide_eq_true_eq] at hcond
      have hni : pyStrip em ∉ acc := by
        simpa using hcond.2
      simp [List.nodup_append, h, hni]
  · exact h

theorem subscriberStep_ne_empty (acc : List String) (em : String)
    (h : ∀ s ∈ acc, s ≠ "") : ∀ s ∈ subscriberStep acc em, s ≠ "" := by
  unfold subscriberStep
  dsimp only
  split
  · next hcond =>
      simp only [Bool.and_eq_true, Bool.not_eq_true', decide_eq_true_eq] at hcond
      intro s hs
      rcases List.mem_append.mp hs with hs' | hs'
      · exact h s hs'
      · have : s = pyStrip em := by simpa using hs'
        subst this
        exact hcond.1
  · exact h

theorem foldl_subscriberStep_nodup (ems : List String) :
    ∀ acc : List String, acc.Nodup → (ems.foldl subscriberStep acc).Nodup := by
  induction ems with
  | nil => intro acc h; exact h
  | cons em ems ih => intro acc h; exact ih _ (subscriberStep_nodup acc em h)

theorem foldl_subscriberStep_ne_empty (ems : List String) :
    ∀ acc : List String, (∀ s ∈ acc, s ≠ "") →
      ∀ s ∈ ems.foldl subscriberStep acc, s ≠ "" := by
  induction ems with
  | nil => intro acc h; exact h
  | cons em ems ih => intro acc h; exact ih _ (subscriberStep_ne_empty acc em h)

/-- An enabled email configuration whose legacy recipient is whitespace. -/
def cfgWhitespaceRecipient : EmailConfig := ⟨true, " ", ""⟩

/-- C10: the claim as written is false on the code.  A whitespace-only
`recipient_email` passes the raw truthiness check, is appended stripped, and
yields a subscriber list containing the empty string. -/
theorem C10_counterexample :
    getSubscriberList cfgWhitespaceRecipient = [""] := by
  decide

/-- C10 (amended): the subscriber list never contains duplicates (dedup is
on exact equality of stripped strings); it contains no empty strings
provided the configured `recipient_email` is either empty or does not strip
to the empty string — a whitespace-only `recipient_email` is the one input
that contributes an empty entry. -/
theorem C10_subscriber_list (cfg : EmailConfig) :
    (getSubscriberList cfg).Nodup
    ∧ (cfg.recipient_email = "" ∨ pyStrip cfg.recipient_email ≠ "" →
        ∀ s ∈ getSubscriberList cfg, s ≠ "") := by
  have hinit_nodup :
      (if cfg.recipient_email ≠ "" then [pyStrip cfg.recipient_email] else []).Nodup := by
    split <;> simp
  constructor
  · show (if cfg.subscriber_emails = "" then
        (if cfg.recipient_email ≠ "" then [pyStrip cfg.recipient_email] else [])
      else ((cfg.subscriber_emails.splitOn ",").foldl subscriberStep
        (if cfg.recipient_email ≠ "" then [pyStrip cfg.recipient_email] else []))).Nodup
    split
    · exact hinit_nodup
    · exact foldl_subscriberStep_nodup _ _ hinit_nodup
  · intro h
    have hinit_ne :
        ∀ s ∈ (if cfg.recipient_email ≠ "" then [pyStrip cfg.recipient_email] else []),
          s ≠ "" := by
      split
      · rcases h with h | h
        · simp_all
        · intro s hs
          have : s = pyStrip cfg.recipient_email := by simpa using hs
          subst this
          exact h
      · intro s hs
        simp at hs
    show ∀ s ∈ (if cfg.subscriber_emails = "" then
        (if cfg.recipient_email ≠ "" then [pyStrip cfg.recipient_email] else [])
      else ((cfg.subscriber_emails.splitOn ",").foldl subscriberStep
        (if cfg.recipient_email ≠ "" then [pyStrip cfg.recipient_email] else []))),
        s ≠ ""
    split
    · exact hinit_ne
    · exact foldl_subscriberStep_ne_empty _ _ hinit_ne

/-- C10 witness: a recipient needing stripping plus a subscriber string with
an empty entry and a duplicate still yields a duplicate-free, empty-free
list. -/
theorem C10_subscriber_list_witness :
    (getSubscriberList ⟨true, " a@b.com ", "a@b.com,c@d.com,,a@b.com"⟩).Nodup
    ∧ ∀ s ∈ getSubscriberList ⟨true, " a@b.com ", "a@b.com,c@d.com,,a@b.com"⟩,
        s ≠ "" :=
  ⟨(C10_subscriber_list ⟨true, " a@b.com ", "a@b.com,c@d.com,,a@b.com"⟩).1,
   (C10_subscriber_list ⟨true, " a@b.com ", "a@b.com,c@d.com,,a@b.com"⟩).2
     (Or.inr (by decide))⟩
